import Mathlib

/-!
Verification of the command classification and execution gate of a
Kubernetes MCP server (`server.py`).

The two operations under study are `run_kubectl_command` (unrestricted
tier) and `run_kubectl_command_ro` (read-only tier).  Both are embedded
as pure Lean functions over an executor oracle `exec : List String →
ExecOutcome` standing for `subprocess.run(argv, capture_output=True,
text=True, check=True)`.  Each invocation of the oracle corresponds to
exactly one `subprocess.run` call in the Python source, i.e. to the
spawning of (at most) one external process; the `execCalls` field of a
`RunOutcome` records the argv of every such invocation, so
`execCalls = []` states that no process is spawned.

Python string primitives are modelled on the character lists underlying
`String`: `str.startswith` is character-sequence prefix matching,
`t in s` is substring containment, `s[8:]` drops the first eight
characters, and `s.split()` splits on runs of whitespace discarding
empty fields.
-/

/-- Character-list prefix test: `isPre p s` is true when `p` is an
initial segment of `s`.  Models Python `s.startswith(p)` applied to the
underlying code-point sequences. -/
def isPre : List Char → List Char → Bool
  | [], _ => true
  | _ :: _, [] => false
  | a :: as, b :: bs => a == b && isPre as bs

/-- Substring containment on character lists: `hasSub t s` is true when
`t` occurs contiguously somewhere in `s`.  Models Python `t in s`. -/
def hasSub (t : List Char) : List Char → Bool
  | [] => t.isEmpty
  | c :: s' => isPre t (c :: s') || hasSub t s'

/-- Python `s.startswith(p)`. -/
def pyStartsWith (s p : String) : Bool := isPre p.data s.data

/-- Python `t in s` (substring containment). -/
def pyIn (t s : String) : Bool := hasSub t.data s.data

/-- Python `s[n:]`: drop the first `n` characters. -/
def pyDrop (s : String) (n : Nat) : String := String.mk (s.data.drop n)

/-- Worker for `pySplit`: walks the characters, accumulating the current
field in reverse; whitespace ends a field, empty fields are dropped. -/
def wsSplit : List Char → List Char → List String
  | [], acc => if acc.isEmpty then [] else [String.mk acc.reverse]
  | c :: cs, acc =>
      if c.isWhitespace then
        if acc.isEmpty then wsSplit cs [] else String.mk acc.reverse :: wsSplit cs []
      else wsSplit cs (c :: acc)

/-- Python `s.split()` with no argument: split on runs of whitespace,
discarding empty fields.  This is the tokenisation the source applies to
the command before handing it to `subprocess.run`. -/
def pySplit (s : String) : List String := wsSplit s.data []

/-- Outcome of one `subprocess.run(argv, ..., check=True)` call, as seen
by the caller: either the process ran to completion with an exit code
and captured stdout/stderr, or the executor could not be launched at all
(e.g. `FileNotFoundError`), in which case no process existed. -/
inductive ExecOutcome where
  | completed (exitCode : Int) (stdout stderr : String)
  | launchFailure
deriving DecidableEq

/-- Result of calling one of the Python tool functions: either a normal
return value (a string), or an exception propagating out of the function
uncaught. -/
inductive PyResult where
  | ret (s : String)
  | raised
deriving DecidableEq

/-- Observable outcome of one tool invocation: the Python-level result
together with the argv of every `subprocess.run` invocation performed. -/
structure RunOutcome where
  result : PyResult
  execCalls : List (List String)
deriving DecidableEq

/-- Shared `try`/`except subprocess.CalledProcessError` logic around the
`subprocess.run(..., check=True)` call in both tool functions: exit code
0 returns captured stdout; a non-zero exit code raises
`CalledProcessError`, which the handler turns into `"Error: " + stderr`;
a launch failure raises an exception that is not a
`CalledProcessError` and therefore propagates uncaught. -/
def forwardOutcome : ExecOutcome → PyResult
  | .completed exitCode stdout stderr =>
      if exitCode = 0 then .ret stdout else .ret ("Error: " ++ stderr)
  | .launchFailure => .raised

/-- The fixed rejection string for commands not starting with
`"kubectl "` (both tiers). -/
def malformedMsg : String := "Error: Command must start with \x27kubectl\x27"

/-- The fixed rejection string of the read-only tier for commands that
fail classification. -/
def roDenyMsg : String :=
  "Error: Only read-only kubectl commands are allowed (get, describe, etc.)"

/-- `allowed_prefixes` from the source: read-only operation shapes the
subcommand may start with. -/
def allowed_prefixes : List String :=
  ["get", "describe", "explain",
   "config view", "config get-contexts",
   "version", "api-resources", "cluster-info"]

/-- `disallowed_terms` from the source: terms that must not occur
anywhere in the subcommand. -/
def disallowed_terms : List String :=
  ["delete", "update", "patch", "apply", "create",
   "replace", "edit", "scale", "cordon", "drain",
   "taint", "label --overwrite", "annotate --overwrite"]

/-- `is_allowed` from the source:
`any(kubectl_subcommand.startswith(prefix) for prefix in allowed_prefixes)`. -/
def is_allowed (kubectl_subcommand : String) : Bool :=
  allowed_prefixes.any (fun p => pyStartsWith kubectl_subcommand p)

/-- `has_disallowed` from the source:
`any(term in kubectl_subcommand for term in disallowed_terms)`. -/
def has_disallowed (kubectl_subcommand : String) : Bool :=
  disallowed_terms.any (fun t => pyIn t kubectl_subcommand)

/-- `run_kubectl_command` (unrestricted tier): reject commands not
starting with `"kubectl "`; otherwise split the command on whitespace
and forward it to the executor with no further checks. -/
def run_kubectl_command (exec : List String → ExecOutcome) (command : String) :
    RunOutcome :=
  if !pyStartsWith command "kubectl " then
    { result := .ret malformedMsg, execCalls := [] }
  else
    { result := forwardOutcome (exec (pySplit command)),
      execCalls := [pySplit command] }

/-- `run_kubectl_command_ro` (read-only tier): reject commands not
starting with `"kubectl "`; strip the 8-character prefix; deny unless
the subcommand starts with an allowed operation and contains no
disallowed term; otherwise split the command on whitespace and forward
it to the executor. -/
def run_kubectl_command_ro (exec : List String → ExecOutcome) (command : String) :
    RunOutcome :=
  if !pyStartsWith command "kubectl " then
    { result := .ret malformedMsg, execCalls := [] }
  else
    let kubectl_subcommand := pyDrop command 8
    if !is_allowed kubectl_subcommand || has_disallowed kubectl_subcommand then
      { result := .ret roDenyMsg, execCalls := [] }
    else
      { result := forwardOutcome (exec (pySplit command)),
        execCalls := [pySplit command] }

/-- ReadVerb patterns as the specification lists them (§3 Verb, §4.1
Step 3): written from the specification text, to be compared with the
source-derived `allowed_prefixes`. -/
def specReadVerbs : List String :=
  ["get", "describe", "explain", "config view", "config get-contexts",
   "version", "api-resources", "cluster-info"]

/-- WriteVerb tokens as the specification lists them (§3 Verb, §4.1
Step 4), including the overwrite-flagged label/annotate variants:
written from the specification text. -/
def specWriteVerbs : List String :=
  ["delete", "update", "patch", "apply", "create", "replace", "edit",
   "scale", "cordon", "drain", "taint",
   "label --overwrite", "annotate --overwrite"]

/-- Specification Step 3 (allow-list match): the operation body starts
with one of the fixed ReadVerb patterns. -/
def specStep3 (body : String) : Bool :=
  specReadVerbs.any (fun p => pyStartsWith body p)

/-- Specification Step 4 (deny-list scan): some WriteVerb token occurs
as a substring anywhere in the operation body. -/
def specStep4 (body : String) : Bool :=
  specWriteVerbs.any (fun t => pyIn t body)

/-- Specification Step 5: Allowed only if Step 3 matched and Step 4
found nothing. -/
def specAllowed (body : String) : Bool := specStep3 body && !specStep4 body

/-! ### Basic lemmas about the embedded operations -/

theorem isPre_self_append (p s : List Char) : isPre p (p ++ s) = true := by
  induction p with
  | nil => rfl
  | cons a as ih => simp [isPre, ih]

theorem pyStartsWith_head_append (body : String) :
    pyStartsWith ("kubectl " ++ body) "kubectl " = true := by
  unfold pyStartsWith
  rw [String.data_append]
  exact isPre_self_append _ _

theorem pyDrop_head_append (body : String) : pyDrop ("kubectl " ++ body) 8 = body := by
  unfold pyDrop
  rw [String.data_append]
  have h8 : ("kubectl " : String).data.length = 8 := by decide
  rw [← h8, List.drop_left]

theorem run_cmd_reject (exec : List String → ExecOutcome) (command : String)
    (h : pyStartsWith command "kubectl " = false) :
    run_kubectl_command exec command = ⟨.ret malformedMsg, []⟩ := by
  unfold run_kubectl_command
  simp [h]

theorem run_cmd_forward (exec : List String → ExecOutcome) (command : String)
    (h : pyStartsWith command "kubectl " = true) :
    run_kubectl_command exec command
      = ⟨forwardOutcome (exec (pySplit command)), [pySplit command]⟩ := by
  unfold run_kubectl_command
  simp [h]

theorem run_ro_reject (exec : List String → ExecOutcome) (command : String)
    (h : pyStartsWith command "kubectl " = false) :
    run_kubectl_command_ro exec command = ⟨.ret malformedMsg, []⟩ := by
  unfold run_kubectl_command_ro
  simp [h]

theorem run_ro_deny (exec : List String → ExecOutcome) (command : String)
    (h1 : pyStartsWith command "kubectl " = true)
    (h2 : is_allowed (pyDrop command 8) = false ∨ has_disallowed (pyDrop command 8) = true) :
    run_kubectl_command_ro exec command = ⟨.ret roDenyMsg, []⟩ := by
  unfold run_kubectl_command_ro
  rcases h2 with h2 | h2 <;> simp [h1, h2]

theorem run_ro_allow (exec : List String → ExecOutcome) (command : String)
    (h1 : pyStartsWith command "kubectl " = true)
    (hA : is_allowed (pyDrop command 8) = true)
    (hD : has_disallowed (pyDrop command 8) = false) :
    run_kubectl_command_ro exec command
      = ⟨forwardOutcome (exec (pySplit command)), [pySplit command]⟩ := by
  unfold run_kubectl_command_ro
  simp [h1, hA, hD]

/-! ### Claim theorems -/

/-- Claim C1: whenever the read-only tier classifies a command as Denied
(the command starts with the `"kubectl "` head but fails the allow-list
match or contains a disallowed term), `run_kubectl_command_ro` returns
the fixed denial string and performs no executor invocation whatsoever:
no external process is spawned on denial, whatever the executor would
have answered. -/
theorem ro_denial_spawns_nothing (exec : List String → ExecOutcome) (command : String)
    (h1 : pyStartsWith command "kubectl " = true)
    (h2 : is_allowed (pyDrop command 8) = false ∨ has_disallowed (pyDrop command 8) = true) :
    run_kubectl_command_ro exec command = ⟨.ret roDenyMsg, []⟩ :=
  run_ro_deny exec command h1 h2

/-- Witness for C1 at the concrete denied command `"kubectl delete pod x"`. -/
theorem ro_denial_spawns_nothing_witness :
    run_kubectl_command_ro (fun _ => .completed 0 "deleted" "") "kubectl delete pod x"
      = ⟨.ret roDenyMsg, []⟩ :=
  ro_denial_spawns_nothing _ _ (by decide) (Or.inl (by decide))

/-- Claim C2: for every well-prefixed command, the read-only tier
executes the command (invoking the executor exactly on the whitespace
split of the command) precisely when the specification classifier says
Allowed — Step 3 matched and Step 4 found nothing — and returns the
fixed denial outcome with no executor invocation precisely when the
specification classifier says Denied. -/
theorem ro_verdict_matches_spec_classifier (exec : List String → ExecOutcome)
    (command : String) (h : pyStartsWith command "kubectl " = true) :
    ((run_kubectl_command_ro exec command).execCalls = [pySplit command]
        ↔ specAllowed (pyDrop command 8) = true)
    ∧ (run_kubectl_command_ro exec command = ⟨.ret roDenyMsg, []⟩
        ↔ specAllowed (pyDrop command 8) = false) := by
  have hA : specStep3 (pyDrop command 8) = is_allowed (pyDrop command 8) := rfl
  have hB : specStep4 (pyDrop command 8) = has_disallowed (pyDrop command 8) := rfl
  cases hia : is_allowed (pyDrop command 8) with
  | false =>
      rw [run_ro_deny exec command h (Or.inl hia)]
      constructor <;> simp [specAllowed, hA, hia]
  | true =>
      cases hd : has_disallowed (pyDrop command 8) with
      | true =>
          rw [run_ro_deny exec command h (Or.inr hd)]
          constructor <;> simp [specAllowed, hA, hB, hia, hd]
      | false =>
          rw [run_ro_allow exec command h hia hd]
          constructor <;> simp [specAllowed, hA, hB, hia, hd]

/-- Witness for C2 at `"kubectl get pods"`: the specification classifier
says Allowed there, so the read-only tier invokes the executor on the
whitespace split. -/
theorem ro_verdict_matches_spec_classifier_witness :
    (run_kubectl_command_ro (fun _ => .completed 0 "" "") "kubectl get pods").execCalls
      = [pySplit "kubectl get pods"] :=
  ((ro_verdict_matches_spec_classifier _ _ (by decide)).1).mpr (by decide)

/-- Claim C3: any command whose subcommand (the text after the 8
character head) contains a disallowed term as a substring is denied by
the read-only tier with the fixed denial string and zero executor
invocations — the deny-list scan takes precedence over any allow-list
match. -/
theorem ro_writeverb_substring_denies (exec : List String → ExecOutcome) (command : String)
    (h1 : pyStartsWith command "kubectl " = true)
    (h2 : has_disallowed (pyDrop command 8) = true) :
    run_kubectl_command_ro exec command = ⟨.ret roDenyMsg, []⟩ :=
  run_ro_deny exec command h1 (Or.inr h2)

/-- Witness for C3 at `"kubectl get pods; kubectl delete pod x"`: the
leading token matches the allow-list, yet the command is denied without
spawning. -/
theorem ro_writeverb_substring_denies_witness :
    is_allowed (pyDrop "kubectl get pods; kubectl delete pod x" 8) = true
    ∧ run_kubectl_command_ro (fun _ => .completed 0 "" "")
        "kubectl get pods; kubectl delete pod x" = ⟨.ret roDenyMsg, []⟩ :=
  ⟨by decide, ro_writeverb_substring_denies _ _ (by decide) (by decide)⟩

/-- Claim C4: a command passing both checks of the read-only tier (the
subcommand starts with an allowed operation and contains no disallowed
term) is executed with exactly one executor invocation, and its result
is whatever forwarding the whitespace-split command to the executor
produces. -/
theorem ro_readverb_command_executes_once (exec : List String → ExecOutcome)
    (command : String)
    (h1 : pyStartsWith command "kubectl " = true)
    (hA : is_allowed (pyDrop command 8) = true)
    (hD : has_disallowed (pyDrop command 8) = false) :
    (run_kubectl_command_ro exec command).execCalls.length = 1
    ∧ (run_kubectl_command_ro exec command).result
        = forwardOutcome (exec (pySplit command)) := by
  rw [run_ro_allow exec command h1 hA hD]
  exact ⟨rfl, rfl⟩

/-- Witness for C4 at `"kubectl get pods"` with an executor that exits 0. -/
theorem ro_readverb_command_executes_once_witness :
    (run_kubectl_command_ro (fun _ => .completed 0 "POD LIST" "") "kubectl get pods").execCalls.length = 1
    ∧ (run_kubectl_command_ro (fun _ => .completed 0 "POD LIST" "") "kubectl get pods").result
        = forwardOutcome (ExecOutcome.completed 0 "POD LIST" "") :=
  ro_readverb_command_executes_once _ _ (by decide) (by decide) (by decide)

/-- Claim C5: multi-word allow-list patterns match literally including
the space: `"kubectl config get-contexts"` is allowed (the executor is
invoked on its whitespace split) while `"kubectl config delete-context
prod"` is denied with no executor invocation — the bare word `config`
does not generically alias the allowed `config view` and `config
get-contexts` patterns. -/
theorem config_multiword_literal_match (exec : List String → ExecOutcome) :
    (run_kubectl_command_ro exec "kubectl config get-contexts").execCalls
        = [["kubectl", "config", "get-contexts"]]
    ∧ run_kubectl_command_ro exec "kubectl config delete-context prod"
        = ⟨.ret roDenyMsg, []⟩ := by
  constructor
  · rw [run_ro_allow exec _ (by decide) (by decide) (by decide)]
    show [pySplit "kubectl config get-contexts"] = [["kubectl", "config", "get-contexts"]]
    decide
  · exact run_ro_deny exec _ (by decide) (Or.inl (by decide))

/-- Claim C6: a command that does not start with the literal
`"kubectl "` head is rejected by both tiers with the same fixed
malformed-command string, and neither tier invokes the executor. -/
theorem malformed_rejected_both_tiers (exec : List String → ExecOutcome) (command : String)
    (h : pyStartsWith command "kubectl " = false) :
    run_kubectl_command exec command = ⟨.ret malformedMsg, []⟩
    ∧ run_kubectl_command_ro exec command = ⟨.ret malformedMsg, []⟩ :=
  ⟨run_cmd_reject exec command h, run_ro_reject exec command h⟩

/-- Witness for C6 at the concrete command `"ls -la"`. -/
theorem malformed_rejected_both_tiers_witness :
    run_kubectl_command (fun _ => .completed 0 "" "") "ls -la" = ⟨.ret malformedMsg, []⟩
    ∧ run_kubectl_command_ro (fun _ => .completed 0 "" "") "ls -la"
        = ⟨.ret malformedMsg, []⟩ :=
  malformed_rejected_both_tiers _ _ (by decide)

/-- Claim C7: for every command starting with the `"kubectl "` head, the
unrestricted tier forwards the command to the executor tokenised on
whitespace, with no classification of any kind: the outcome is exactly
the forwarded executor outcome and exactly one executor invocation is
made, whatever the command says. -/
theorem unrestricted_forwards_without_classification (exec : List String → ExecOutcome)
    (command : String) (h : pyStartsWith command "kubectl " = true) :
    run_kubectl_command exec command
      = ⟨forwardOutcome (exec (pySplit command)), [pySplit command]⟩ :=
  run_cmd_forward exec command h

/-- Witness for C7 at the mutating command `"kubectl delete pod nginx"`,
which the unrestricted tier executes. -/
theorem unrestricted_forwards_without_classification_witness :
    run_kubectl_command (fun _ => .completed 0 "pod deleted" "") "kubectl delete pod nginx"
      = ⟨forwardOutcome (ExecOutcome.completed 0 "pod deleted" ""),
         [["kubectl", "delete", "pod", "nginx"]]⟩ := by
  rw [unrestricted_forwards_without_classification _ _ (by decide)]
  decide

/-- Counterexample to claim C8 as stated: when the executor cannot be
launched at all, the result is an exception propagating out of the
function (only `CalledProcessError` is caught in the source), not an
error-result string with stderr populated — for both tiers. -/
theorem launch_failure_not_reported_counterexample :
    (run_kubectl_command (fun _ => .launchFailure) "kubectl get pods").result
        = PyResult.raised
    ∧ (run_kubectl_command_ro (fun _ => .launchFailure) "kubectl get pods").result
        = PyResult.raised := by
  decide

/-- Claim C8 (amended): for every forwarded command, a non-zero exit of
the spawned process is reported back as an error result carrying the
captured stderr, in both tiers; a failure to launch the process, by
contrast, raises an exception that propagates out of the operation
uncaught. -/
theorem nonzero_exit_reported_launch_failure_raises (exec : List String → ExecOutcome)
    (command : String) (h : pyStartsWith command "kubectl " = true) :
    (∀ code out err, exec (pySplit command) = .completed code out err → code ≠ 0 →
        (run_kubectl_command exec command).result = .ret ("Error: " ++ err))
    ∧ (exec (pySplit command) = .launchFailure →
        (run_kubectl_command exec command).result = .raised)
    ∧ (is_allowed (pyDrop command 8) = true → has_disallowed (pyDrop command 8) = false →
        (∀ code out err, exec (pySplit command) = .completed code out err → code ≠ 0 →
            (run_kubectl_command_ro exec command).result = .ret ("Error: " ++ err))
        ∧ (exec (pySplit command) = .launchFailure →
            (run_kubectl_command_ro exec command).result = .raised)) := by
  refine ⟨?_, ?_, ?_⟩
  · intro code out err he hc
    rw [run_cmd_forward exec command h]
    simp [forwardOutcome, he, hc]
  · intro he
    rw [run_cmd_forward exec command h]
    simp [forwardOutcome, he]
  · intro hA hD
    constructor
    · intro code out err he hc
      rw [run_ro_allow exec command h hA hD]
      simp [forwardOutcome, he, hc]
    · intro he
      rw [run_ro_allow exec command h hA hD]
      simp [forwardOutcome, he]

/-- Witness for amended C8: an executor exiting with code 1 and stderr
`"boom"` yields the error-result string `"Error: boom"`. -/
theorem nonzero_exit_reported_launch_failure_raises_witness :
    (run_kubectl_command (fun _ => ExecOutcome.completed 1 "" "boom") "kubectl get pods").result
      = PyResult.ret ("Error: " ++ "boom") :=
  (nonzero_exit_reported_launch_failure_raises
      (fun _ => ExecOutcome.completed 1 "" "boom") "kubectl get pods" (by decide)).1
    1 "" "boom" rfl (by decide)

/-- Counterexample to claim C9 as stated: a command failing only the
Step 3 allow-list match (`"kubectl logs mypod"`) and a command failing
only the Step 4 deny-list scan (`"kubectl get pods; kubectl delete pod
x"`) receive the identical fixed denial string, so the returned reason
does not identify which of the two checks failed. -/
theorem deny_reason_not_check_specific_counterexample :
    is_allowed (pyDrop "kubectl logs mypod" 8) = false
    ∧ has_disallowed (pyDrop "kubectl logs mypod" 8) = false
    ∧ is_allowed (pyDrop "kubectl get pods; kubectl delete pod x" 8) = true
    ∧ has_disallowed (pyDrop "kubectl get pods; kubectl delete pod x" 8) = true
    ∧ (run_kubectl_command_ro (fun _ => .completed 0 "" "") "kubectl logs mypod").result
        = (run_kubectl_command_ro (fun _ => .completed 0 "" "")
            "kubectl get pods; kubectl delete pod x").result := by
  decide

/-- Claim C9 (amended): the denial reason distinguishes a missing-head
failure (the fixed malformed-command string) from a policy failure (the
fixed read-only denial string), and those two strings differ; but a
Step 3 allow-list mismatch and a Step 4 disallowed-term hit both yield
the same policy string and are not told apart. -/
theorem deny_reason_distinguishes_malformed_from_policy (exec : List String → ExecOutcome)
    (command : String) :
    (pyStartsWith command "kubectl " = false →
        (run_kubectl_command_ro exec command).result = .ret malformedMsg)
    ∧ (pyStartsWith command "kubectl " = true →
        (is_allowed (pyDrop command 8) = false ∨ has_disallowed (pyDrop command 8) = true) →
        (run_kubectl_command_ro exec command).result = .ret roDenyMsg)
    ∧ malformedMsg ≠ roDenyMsg := by
  refine ⟨fun h => ?_, fun h1 h2 => ?_, by decide⟩
  · rw [run_ro_reject exec command h]
  · rw [run_ro_deny exec command h1 h2]

/-- Witness for amended C9: a prefix failure and a policy failure at
concrete commands, yielding the two distinct fixed strings. -/
theorem deny_reason_distinguishes_malformed_from_policy_witness :
    (run_kubectl_command_ro (fun _ => .completed 0 "" "") "ls").result = .ret malformedMsg
    ∧ (run_kubectl_command_ro (fun _ => .completed 0 "" "") "kubectl drain node1").result
        = .ret roDenyMsg :=
  ⟨(deny_reason_distinguishes_malformed_from_policy (fun _ => .completed 0 "" "") "ls").1
      (by decide),
   (deny_reason_distinguishes_malformed_from_policy (fun _ => .completed 0 "" "")
      "kubectl drain node1").2.1 (by decide) (Or.inr (by decide))⟩

/-- Claim C10: the allow-list match requires no token boundary after the
matched pattern: for every command `"kubectl " ++ body` whose body
begins with the characters of an allowed pattern (whole word or not) and
contains no disallowed term, the read-only tier classifies the command
as allowed and invokes the executor on its whitespace split. -/
theorem allow_match_requires_no_token_boundary (exec : List String → ExecOutcome)
    (body : String)
    (hA : is_allowed body = true)
    (hD : has_disallowed body = false) :
    run_kubectl_command_ro exec ("kubectl " ++ body)
      = ⟨forwardOutcome (exec (pySplit ("kubectl " ++ body))),
         [pySplit ("kubectl " ++ body)]⟩ := by
  have h2 := pyDrop_head_append body
  exact run_ro_allow exec _ (pyStartsWith_head_append body)
    (by rw [h2]; exact hA) (by rw [h2]; exact hD)

/-- Witness for C10 at body `"gettysburg"`: the pattern `"get"` matches
as a character prefix without being a whole token, and the command is
executed. -/
theorem allow_match_requires_no_token_boundary_witness :
    run_kubectl_command_ro (fun _ => .completed 0 "" "") ("kubectl " ++ "gettysburg")
      = ⟨forwardOutcome (ExecOutcome.completed 0 "" ""), [["kubectl", "gettysburg"]]⟩ := by
  rw [allow_match_requires_no_token_boundary _ "gettysburg" (by decide) (by decide)]
  decide
